import Mathlib

/-!
# EdgeDynamicObstacle: the dynamic-obstacle cost edge of teb_local_planner

A shallow embedding of `include/teb_local_planner/g2o_types/edge_dynamic_obstacle.h`.

Conventions of the embedding:

* C++ `double` is idealised as a real number (`ℝ`); rounding, overflow and the
  IEEE values NaN and ±Inf have no counterpart here.
* Pointers are modelled by value: the edge state carries a snapshot of the two
  vertices it is bound to; the obstacle pointer `_measurement` and the
  configuration pointer `cfg_` are `Option`s, `none` being the null pointer.
* `computeError` returns the outcome of the call together with the state the
  call leaves behind, so that the state after a failed assertion can be
  spoken about.
-/

namespace teb_local_planner

/-! ## Linear algebra (Eigen::Vector2d) -/

/-- Eigen::Vector2d, a pair of doubles. -/
structure Vector2d where
  x : ℝ
  y : ℝ

namespace Vector2d

/-- Component-wise sum, `operator+` of Eigen. -/
instance : Add Vector2d where
  add a b := ⟨a.x + b.x, a.y + b.y⟩

/-- Component-wise difference, `operator-` of Eigen. -/
instance : Sub Vector2d where
  sub a b := ⟨a.x - b.x, a.y - b.y⟩

/-- Scalar times vector, `double * Vector2d` of Eigen. -/
instance : HMul ℝ Vector2d Vector2d where
  hMul s a := ⟨s * a.x, s * a.y⟩

/-- Eigen `squaredNorm()`: the sum of the squared coefficients. -/
def squaredNorm (a : Vector2d) : ℝ :=
  a.x * a.x + a.y * a.y

/-- Eigen `norm()`: the square root of `squaredNorm()`. -/
noncomputable def norm (a : Vector2d) : ℝ :=
  Real.sqrt a.squaredNorm

/-- The point of the Euclidean plane a `Vector2d` stands for. -/
noncomputable def toEuclidean (a : Vector2d) : EuclideanSpace ℝ (Fin 2) :=
  (WithLp.equiv 2 (Fin 2 → ℝ)).symm ![a.x, a.y]

end Vector2d

/-! ## Collaborators that the header includes -/

/-- Modelled from the spec: `penaltyBoundFromBelow` of
`teb_local_planner/g2o_types/penalties.h`, which is included by the header but
is not among the source files. The spec (4.1): "cost is 0 when
`value >= lower_bound + epsilon`; for `value` below that threshold the cost
rises, continuously and with a continuous first derivative at the transition
point, as `lower_bound + epsilon - value` (or a smooth variant thereof)".
The model takes the one formula the spec names, `lower_bound + epsilon - value`.
It meets the spec's conditions (i), (iii) and (iv) and is continuous, but its
slope changes at the transition point, so it does not meet the clause on the
first derivative; nothing is concluded here about the derivative of the
function in `penalties.h`. -/
noncomputable def penaltyBoundFromBelow (var a epsilon : ℝ) : ℝ :=
  if var ≥ a + epsilon then 0 else -var + (a + epsilon)

/-- Modelled from the spec: the pose estimate held by a `VertexPose`
(`vertex_pose.h`): "a 2D position (and orientation, unused by this edge)". -/
structure PoseSE2 where
  _position : Vector2d
  _theta : ℝ

/-- Modelled from the spec: `VertexPose` of `vertex_pose.h`, the pose variable
owned by the graph. -/
structure VertexPose where
  _estimate : PoseSE2

/-- The accessor `VertexPose::position()`. -/
def VertexPose.position (v : VertexPose) : Vector2d :=
  v._estimate._position

/-- Modelled from the spec: `VertexTimeDiff` of `vertex_timediff.h`, "the
duration between two consecutive discretization indices". -/
structure VertexTimeDiff where
  _estimate : ℝ

/-- The accessor `VertexTimeDiff::estimate()`. -/
def VertexTimeDiff.estimate (v : VertexTimeDiff) : ℝ :=
  v._estimate

/-- Modelled from the spec: `Obstacle` of `obstacles.h`, "an immutable view
(centroid position, centroid velocity)". -/
structure Obstacle where
  centroid_ : Vector2d
  centroid_velocity_ : Vector2d

/-- The accessor `Obstacle::getCentroid()`. -/
def Obstacle.getCentroid (o : Obstacle) : Vector2d :=
  o.centroid_

/-- The accessor `Obstacle::getCentroidVelocity()`. -/
def Obstacle.getCentroidVelocity (o : Obstacle) : Vector2d :=
  o.centroid_velocity_

/-- Modelled from the spec: the group `obstacles` of `TebConfig`
(`teb_config.h`), of which the edge reads `min_obstacle_dist`. -/
structure TebConfig.Obstacles where
  min_obstacle_dist : ℝ

/-- Modelled from the spec: the group `optim` of `TebConfig`
(`teb_config.h`), of which the edge reads `penalty_epsilon`. -/
structure TebConfig.Optim where
  penalty_epsilon : ℝ

/-- Modelled from the spec: `TebConfig` of `teb_config.h`, restricted to the
two parameters the edge consumes. -/
structure TebConfig where
  obstacles : TebConfig.Obstacles
  optim : TebConfig.Optim

/-- Modelled from the spec: the state that
`BaseTebBinaryEdge<1, const Obstacle*, VertexPose, VertexTimeDiff>`
(`base_teb_edges.h`) provides: "residual-vector storage, variable binding
slots, and measurement storage for the obstacle reference", and the
configuration pointer `cfg_` set by `setTebConfig`.
`_vertices0` and `_vertices1` are the targets of `_vertices[0]` and
`_vertices[1]`; `_error` is the 1-dimensional residual vector. -/
structure BaseTebBinaryEdge where
  _vertices0 : VertexPose
  _vertices1 : VertexTimeDiff
  _measurement : Option Obstacle
  cfg_ : Option TebConfig
  _error : Fin 1 → ℝ

/-! ## The edge -/

/-- The class `EdgeDynamicObstacle`: the base-class state and the two
protected members `vert_idx_` and `t_`. -/
structure EdgeDynamicObstacle extends BaseTebBinaryEdge where
  vert_idx_ : ℕ
  t_ : ℝ

/-- The ways a call of `computeError` can end abnormally. -/
inductive Fault where
  /-- The assertion `ROS_ASSERT_MSG(cfg_, "You must call setTebConfig ...")` failed. -/
  | configNotSet
  /-- The obstacle pointer `_measurement` was dereferenced while null. -/
  | nullObstacle
  /-- The assertion `ROS_ASSERT_MSG(std::isfinite(_error[0]), ...)` failed. -/
  | nonFiniteError
  deriving DecidableEq, Repr

/-- The test `std::isfinite` in the real-number convention: every real number
is finite, so the last assertion of `computeError` cannot fail under it.
`EdgeDynamicObstacle.computeErrorWith` leaves the test open. -/
def isfinite (_x : ℝ) : Bool :=
  true

namespace EdgeDynamicObstacle

/-- The default constructor `EdgeDynamicObstacle() : vert_idx_(0)`. It gives
`t_` no value: `t_uninit` stands for whatever the member holds. -/
def default (base : BaseTebBinaryEdge) (t_uninit : ℝ) : EdgeDynamicObstacle :=
  { base with vert_idx_ := 0, t_ := t_uninit }

/-- The constructor
`EdgeDynamicObstacle(size_t vert_idx, double t) : vert_idx_(vert_idx), t_(t)`. -/
def create (base : BaseTebBinaryEdge) (vert_idx : ℕ) (t : ℝ) : EdgeDynamicObstacle :=
  { base with vert_idx_ := vert_idx, t_ := t }

/-- The assignment `_error[0] = r`. -/
def assignError0 (e : EdgeDynamicObstacle) (r : ℝ) : EdgeDynamicObstacle :=
  { e with _error := Function.update e._error 0 r }

/-- The member function `computeError()`. -/
noncomputable def computeError (e : EdgeDynamicObstacle) :
    Except Fault Unit × EdgeDynamicObstacle :=
  match e.cfg_ with
  | none => (Except.error Fault.configNotSet, e)
  | some cfg =>
    let bandpt := e._vertices0
    let _dt_vertex := e._vertices1
    match e._measurement with
    | none => (Except.error Fault.nullObstacle, e)
    | some obst =>
      let pred_obst_point := obst.getCentroid + e.t_ * obst.getCentroidVelocity
      let dist := (pred_obst_point - bandpt.position).norm
      let error0 := penaltyBoundFromBelow dist cfg.obstacles.min_obstacle_dist
        cfg.optim.penalty_epsilon
      let e' := e.assignError0 error0
      if isfinite (e'._error 0) then (Except.ok (), e')
      else (Except.error Fault.nonFiniteError, e')

/-- The mutator `setVertexIdx(size_t vert_idx)`. -/
def setVertexIdx (e : EdgeDynamicObstacle) (vert_idx : ℕ) : EdgeDynamicObstacle :=
  { e with vert_idx_ := vert_idx }

/-- The mutator `setObstacle(const Obstacle* obstacle)`. -/
def setObstacle (e : EdgeDynamicObstacle) (obstacle : Option Obstacle) :
    EdgeDynamicObstacle :=
  { e with _measurement := obstacle }

end EdgeDynamicObstacle

/-! ## The motion model, call sequences and the space-time distance -/

/-- The predicted obstacle position `pred_obst_point` of `computeError`,
`centroid + t * velocity`, as a function of the time offset (the motion model
`predictPosition` of the specification, 4.2). -/
def predictPosition (centroid velocity : Vector2d) (elapsed_time : ℝ) : Vector2d :=
  centroid + elapsed_time * velocity

/-- A call of one of the three public member functions of the edge. -/
inductive Call where
  /-- The call `setVertexIdx(vert_idx)`. -/
  | setVertexIdx (vert_idx : ℕ)
  /-- The call `setObstacle(obstacle)`. -/
  | setObstacle (obstacle : Option Obstacle)
  /-- The call `computeError()`. -/
  | computeError

/-- The effect of one call: its outcome and the state it leaves. -/
noncomputable def applyCall (e : EdgeDynamicObstacle) :
    Call → Except Fault Unit × EdgeDynamicObstacle
  | Call.setVertexIdx vert_idx => (Except.ok (), e.setVertexIdx vert_idx)
  | Call.setObstacle obstacle => (Except.ok (), e.setObstacle obstacle)
  | Call.computeError => e.computeError

/-- The effect of a sequence of calls, made one after the other; a failed
assertion is fatal, so the calls after a fault are not made. -/
noncomputable def runCalls :
    List Call → EdgeDynamicObstacle → Except Fault Unit × EdgeDynamicObstacle
  | [], e => (Except.ok (), e)
  | call :: rest, e =>
    match applyCall e call with
    | (Except.ok (), e') => runCalls rest e'
    | (Except.error f, e') => (Except.error f, e')

/-- The distance in x-y-t between the pose point `(p.x, p.y, t)` and the point
`(c + s*v, s)` that the constant-velocity obstacle trajectory reaches at time
`s`. This follows the class documentation ("minimum distance to the obstacle
trajectory (spatial and temporal)") and the disabled block of `computeError`,
not the code that runs. -/
noncomputable def spaceTimeDistanceAt (c v : Vector2d) (t : ℝ) (p : Vector2d) (s : ℝ) : ℝ :=
  Real.sqrt ((c + s * v - p).squaredNorm + (s - t) * (s - t))

/-- The documented distance: `d` is the minimum over all times `s` of the
x-y-t distance between the pose point and the obstacle trajectory. -/
def IsSpaceTimeDistance (c v : Vector2d) (t : ℝ) (p : Vector2d) (d : ℝ) : Prop :=
  IsLeast (Set.range (spaceTimeDistanceAt c v t p)) d

/-! ## Concrete scenarios

The two scenarios of the specification's testable properties, used to
evaluate the statements below on concrete inputs. -/

/-- An edge bound to a pose at position `p` with orientation `theta`, a time
interval `dt`, and the given obstacle, configuration, index and time offset;
the residual slot starts at `0`. -/
def scenario (cfg : Option TebConfig) (obst : Option Obstacle) (vert_idx : ℕ) (t : ℝ)
    (p : Vector2d) (theta dt : ℝ) : EdgeDynamicObstacle :=
  EdgeDynamicObstacle.create
    { _vertices0 := { _estimate := { _position := p, _theta := theta } }
      _vertices1 := { _estimate := dt }
      _measurement := obst
      cfg_ := cfg
      _error := fun _ => 0 }
    vert_idx t

/-- Configuration with `min_obstacle_dist = 1.0` and `penalty_epsilon = 0.1`. -/
noncomputable def cfgA : TebConfig :=
  { obstacles := { min_obstacle_dist := 1 }, optim := { penalty_epsilon := 1 / 10 } }

/-- Obstacle with centroid `(0,0)` and velocity `(1,0)`. -/
def obstA : Obstacle :=
  { centroid_ := ⟨0, 0⟩, centroid_velocity_ := ⟨1, 0⟩ }

/-- Configuration with `min_obstacle_dist = 0.5` and `penalty_epsilon = 0.05`. -/
noncomputable def cfgB : TebConfig :=
  { obstacles := { min_obstacle_dist := 1 / 2 }, optim := { penalty_epsilon := 1 / 20 } }

/-- Obstacle with centroid `(5,5)` and velocity `(0,-1)`. -/
def obstB : Obstacle :=
  { centroid_ := ⟨5, 5⟩, centroid_velocity_ := ⟨0, -1⟩ }

/-- Configuration with `min_obstacle_dist = 4.5` and `penalty_epsilon = 0.1`. -/
noncomputable def cfgC : TebConfig :=
  { obstacles := { min_obstacle_dist := 9 / 2 }, optim := { penalty_epsilon := 1 / 10 } }

/-- Obstacle with centroid `(0,0)` and velocity `(0.75,0)`. -/
noncomputable def obstC : Obstacle :=
  { centroid_ := ⟨0, 0⟩, centroid_velocity_ := ⟨3 / 4, 0⟩ }

/-! ## Auxiliary facts -/

/-- The distance the edge computes: the Eigen norm of
`centroid + t * velocity - position`. -/
noncomputable def predictedDistance (c v : Vector2d) (t : ℝ) (p : Vector2d) : ℝ :=
  (c + t * v - p).norm

/-- The residual the edge stores for a bound configuration and obstacle. -/
noncomputable def residualOf (cfg : TebConfig) (obst : Obstacle) (t : ℝ) (p : Vector2d) : ℝ :=
  penaltyBoundFromBelow (predictedDistance obst.getCentroid obst.getCentroidVelocity t p)
    cfg.obstacles.min_obstacle_dist cfg.optim.penalty_epsilon

theorem Vector2d.norm_eq_sqrt (a : Vector2d) : a.norm = Real.sqrt (a.x ^ 2 + a.y ^ 2) := by
  unfold Vector2d.norm Vector2d.squaredNorm
  congr 1
  ring

theorem Vector2d.norm_nonneg (a : Vector2d) : 0 ≤ a.norm :=
  Real.sqrt_nonneg _

theorem predictedDistance_eq_sqrt (c v : Vector2d) (t : ℝ) (p : Vector2d) :
    predictedDistance c v t p
      = Real.sqrt ((c.x + t * v.x - p.x) ^ 2 + (c.y + t * v.y - p.y) ^ 2) := by
  unfold predictedDistance
  rw [Vector2d.norm_eq_sqrt]
  rfl

theorem predictedDistance_eq_euclidean (c v : Vector2d) (t : ℝ) (p : Vector2d) :
    predictedDistance c v t p
      = ‖c.toEuclidean + t • v.toEuclidean - p.toEuclidean‖ := by
  rw [predictedDistance_eq_sqrt, EuclideanSpace.norm_eq, Fin.sum_univ_two]
  simp [Vector2d.toEuclidean, sq_abs]

theorem predictedDistance_nonneg (c v : Vector2d) (t : ℝ) (p : Vector2d) :
    0 ≤ predictedDistance c v t p :=
  Vector2d.norm_nonneg _

/-- With configuration and obstacle bound, `computeError` completes and
leaves the state with `_error[0]` overwritten by the residual. -/
theorem computeError_of_bound (e : EdgeDynamicObstacle) (cfg : TebConfig) (obst : Obstacle)
    (hcfg : e.cfg_ = some cfg) (hobst : e._measurement = some obst) :
    e.computeError
      = (Except.ok (), e.assignError0 (residualOf cfg obst e.t_ e._vertices0.position)) := by
  unfold EdgeDynamicObstacle.computeError
  simp only [hcfg, hobst, isfinite, if_true]
  rfl

/-- With no configuration bound, `computeError` stops at the first assertion
and leaves the state as it was. -/
theorem computeError_of_unset (e : EdgeDynamicObstacle) (hcfg : e.cfg_ = none) :
    e.computeError = (Except.error Fault.configNotSet, e) := by
  unfold EdgeDynamicObstacle.computeError
  simp only [hcfg]

/-- The Euclidean distance of the claims, evaluated through the components. -/
theorem euclidean_distance_eq_sqrt (c v : Vector2d) (t : ℝ) (p : Vector2d) :
    ‖c.toEuclidean + t • v.toEuclidean - p.toEuclidean‖
      = Real.sqrt ((c.x + t * v.x - p.x) ^ 2 + (c.y + t * v.y - p.y) ^ 2) := by
  rw [← predictedDistance_eq_euclidean, predictedDistance_eq_sqrt]

/-- The residual of a bound edge, in terms of the Euclidean distance. -/
theorem computeError_residual (e : EdgeDynamicObstacle) (cfg : TebConfig) (obst : Obstacle)
    (hcfg : e.cfg_ = some cfg) (hobst : e._measurement = some obst) :
    e.computeError.2._error 0
      = penaltyBoundFromBelow
          ‖obst.getCentroid.toEuclidean + e.t_ • obst.getCentroidVelocity.toEuclidean
            - e._vertices0.position.toEuclidean‖
          cfg.obstacles.min_obstacle_dist cfg.optim.penalty_epsilon := by
  rw [computeError_of_bound e cfg obst hcfg hobst, ← predictedDistance_eq_euclidean]
  simp [EdgeDynamicObstacle.assignError0, residualOf]

/-- A bound edge completes. -/
theorem computeError_completes (e : EdgeDynamicObstacle) (cfg : TebConfig) (obst : Obstacle)
    (hcfg : e.cfg_ = some cfg) (hobst : e._measurement = some obst) :
    e.computeError.1 = Except.ok () := by
  rw [computeError_of_bound e cfg obst hcfg hobst]

theorem penaltyBoundFromBelow_of_ge (var a epsilon : ℝ) (h : var ≥ a + epsilon) :
    penaltyBoundFromBelow var a epsilon = 0 := by
  unfold penaltyBoundFromBelow
  rw [if_pos h]

theorem penaltyBoundFromBelow_of_lt (var a epsilon : ℝ) (h : var < a + epsilon) :
    penaltyBoundFromBelow var a epsilon = -var + (a + epsilon) := by
  unfold penaltyBoundFromBelow
  rw [if_neg (not_le.mpr h)]

theorem penaltyBoundFromBelow_nonneg (var a epsilon : ℝ) :
    0 ≤ penaltyBoundFromBelow var a epsilon := by
  unfold penaltyBoundFromBelow
  split_ifs with h
  · exact le_refl 0
  · linarith [not_le.mp h]

theorem penaltyBoundFromBelow_antitone (a epsilon var1 var2 : ℝ) (h : var1 ≤ var2) :
    penaltyBoundFromBelow var2 a epsilon ≤ penaltyBoundFromBelow var1 a epsilon := by
  unfold penaltyBoundFromBelow
  split_ifs with h2 h1 h1
  · exact le_refl 0
  · linarith [not_le.mp h1]
  · linarith
  · linarith

/-- The distances of the first scenario (centroid `(0,0)`, velocity `(1,0)`,
time offset `2`) along the x axis. -/
theorem euclidean_distance_scenarioA (px : ℝ) :
    ‖obstA.getCentroid.toEuclidean + (2 : ℝ) • obstA.getCentroidVelocity.toEuclidean
      - (⟨px, 0⟩ : Vector2d).toEuclidean‖ = |2 - px| := by
  rw [euclidean_distance_eq_sqrt]
  show Real.sqrt (((0 : ℝ) + 2 * 1 - px) ^ 2 + (0 + 2 * 0 - 0) ^ 2) = |2 - px|
  rw [show (((0 : ℝ) + 2 * 1 - px) ^ 2 + (0 + 2 * 0 - 0) ^ 2) = (2 - px) ^ 2 by ring]
  exact Real.sqrt_sq_eq_abs _

/-- The distances of the second scenario (centroid `(5,5)`, velocity `(0,-1)`,
time offset `3`) along the line `x = 5`. -/
theorem euclidean_distance_scenarioB (py : ℝ) :
    ‖obstB.getCentroid.toEuclidean + (3 : ℝ) • obstB.getCentroidVelocity.toEuclidean
      - (⟨5, py⟩ : Vector2d).toEuclidean‖ = |2 - py| := by
  rw [euclidean_distance_eq_sqrt]
  show Real.sqrt (((5 : ℝ) + 3 * 0 - 5) ^ 2 + (5 + 3 * (-1) - py) ^ 2) = |2 - py|
  rw [show (((5 : ℝ) + 3 * 0 - 5) ^ 2 + (5 + 3 * (-1) - py) ^ 2) = (2 - py) ^ 2 by ring]
  exact Real.sqrt_sq_eq_abs _

/-! ## The residual computed by `computeError` -/

/-- C1: for an edge whose configuration and obstacle are set, `computeError`
completes and stores in `_error[0]` exactly
`penaltyBoundFromBelow(d, min_obstacle_dist, penalty_epsilon)`, where `d` is the
Euclidean norm of `(c + t*v) - p` for the obstacle centroid `c`, centroid
velocity `v`, stored time offset `t` and pose-vertex position `p`. -/
theorem computeError_stores_penalty_of_distance (e : EdgeDynamicObstacle) (cfg : TebConfig)
    (obst : Obstacle) (hcfg : e.cfg_ = some cfg) (hobst : e._measurement = some obst) :
    e.computeError.1 = Except.ok () ∧
    e.computeError.2._error 0
      = penaltyBoundFromBelow
          ‖obst.getCentroid.toEuclidean + e.t_ • obst.getCentroidVelocity.toEuclidean
            - e._vertices0.position.toEuclidean‖
          cfg.obstacles.min_obstacle_dist cfg.optim.penalty_epsilon := by
  rw [computeError_of_bound e cfg obst hcfg hobst, ← predictedDistance_eq_euclidean]
  refine ⟨rfl, ?_⟩
  simp [EdgeDynamicObstacle.assignError0, residualOf]

/-- C1 evaluated on the first scenario with the pose at `(3,0)`: the distance
is `1` and the stored residual is `penaltyBoundFromBelow(1, 1.0, 0.1) = 0.1`. -/
theorem computeError_stores_penalty_of_distance_witness :
    (scenario (some cfgA) (some obstA) 4 2 ⟨3, 0⟩ 0 (1 / 2)).computeError.1 = Except.ok () ∧
    (scenario (some cfgA) (some obstA) 4 2 ⟨3, 0⟩ 0 (1 / 2)).computeError.2._error 0
      = 1 / 10 := by
  have h := computeError_stores_penalty_of_distance
    (scenario (some cfgA) (some obstA) 4 2 ⟨3, 0⟩ 0 (1 / 2)) cfgA obstA rfl rfl
  refine ⟨h.1, ?_⟩
  rw [h.2, ← predictedDistance_eq_euclidean, predictedDistance_eq_sqrt]
  have hd : Real.sqrt (((0 : ℝ) + 2 * 1 - 3) ^ 2 + (0 + 2 * 0 - 0) ^ 2) = 1 := by
    rw [show (((0 : ℝ) + 2 * 1 - 3) ^ 2 + (0 + 2 * 0 - 0) ^ 2) = 1 by norm_num]
    exact Real.sqrt_one
  show penaltyBoundFromBelow
    (Real.sqrt (((0 : ℝ) + 2 * 1 - 3) ^ 2 + (0 + 2 * 0 - 0) ^ 2)) 1 (1 / 10) = 1 / 10
  rw [hd]
  unfold penaltyBoundFromBelow
  norm_num

/-- C2: the residual does not depend on the time-interval vertex, on
`vert_idx_` or on the pose orientation: two edge states (configuration and
obstacle set) that agree on obstacle centroid, obstacle velocity, `t_`, pose
position, `min_obstacle_dist` and `penalty_epsilon` get the same `_error[0]`
from `computeError`, whatever their time-interval estimates, indices and
orientations are. -/
theorem computeError_residual_independent (e1 e2 : EdgeDynamicObstacle) (cfg1 cfg2 : TebConfig)
    (obst1 obst2 : Obstacle)
    (hcfg1 : e1.cfg_ = some cfg1) (hcfg2 : e2.cfg_ = some cfg2)
    (hobst1 : e1._measurement = some obst1) (hobst2 : e2._measurement = some obst2)
    (hc : obst1.getCentroid = obst2.getCentroid)
    (hv : obst1.getCentroidVelocity = obst2.getCentroidVelocity)
    (ht : e1.t_ = e2.t_)
    (hp : e1._vertices0.position = e2._vertices0.position)
    (hmin : cfg1.obstacles.min_obstacle_dist = cfg2.obstacles.min_obstacle_dist)
    (heps : cfg1.optim.penalty_epsilon = cfg2.optim.penalty_epsilon) :
    e1.computeError.1 = Except.ok () ∧ e2.computeError.1 = Except.ok () ∧
    e1.computeError.2._error 0 = e2.computeError.2._error 0 := by
  rw [computeError_of_bound e1 cfg1 obst1 hcfg1 hobst1,
    computeError_of_bound e2 cfg2 obst2 hcfg2 hobst2]
  refine ⟨rfl, rfl, ?_⟩
  simp [EdgeDynamicObstacle.assignError0, residualOf, hc, hv, ht, hp, hmin, heps]

/-- C2 evaluated on the first scenario with the pose at `(3,0)`: index `4`,
orientation `0` and time interval `0.5` against index `9`, orientation `2`
and time interval `7`. -/
theorem computeError_residual_independent_witness :
    (scenario (some cfgA) (some obstA) 4 2 ⟨3, 0⟩ 0 (1 / 2)).computeError.1 = Except.ok () ∧
    (scenario (some cfgA) (some obstA) 9 2 ⟨3, 0⟩ 2 7).computeError.1 = Except.ok () ∧
    (scenario (some cfgA) (some obstA) 4 2 ⟨3, 0⟩ 0 (1 / 2)).computeError.2._error 0
      = (scenario (some cfgA) (some obstA) 9 2 ⟨3, 0⟩ 2 7).computeError.2._error 0 :=
  computeError_residual_independent
    (scenario (some cfgA) (some obstA) 4 2 ⟨3, 0⟩ 0 (1 / 2))
    (scenario (some cfgA) (some obstA) 9 2 ⟨3, 0⟩ 2 7)
    cfgA cfgA obstA obstA rfl rfl rfl rfl rfl rfl rfl rfl rfl rfl

/-- C4: `computeError` changes nothing except the residual slot `_error[0]`:
the pose vertex, the time-interval vertex, the obstacle reference,
`vert_idx_`, `t_` and the configuration are the same after the call as before
it, and when the call fails on the missing-configuration assertion the whole
state, `_error` included, is unchanged. -/
theorem computeError_frame (e : EdgeDynamicObstacle) :
    e.computeError.2._vertices0 = e._vertices0 ∧
    e.computeError.2._vertices1 = e._vertices1 ∧
    e.computeError.2._measurement = e._measurement ∧
    e.computeError.2.vert_idx_ = e.vert_idx_ ∧
    e.computeError.2.t_ = e.t_ ∧
    e.computeError.2.cfg_ = e.cfg_ ∧
    (e.computeError.1 = Except.error Fault.configNotSet →
      e.computeError.2 = e ∧ e.computeError.2._error = e._error) := by
  cases hcfg : e.cfg_ with
  | none =>
    rw [computeError_of_unset e hcfg]
    simp [hcfg]
  | some cfg =>
    cases hobst : e._measurement with
    | none =>
      have h : e.computeError = (Except.error Fault.nullObstacle, e) := by
        unfold EdgeDynamicObstacle.computeError
        simp only [hcfg, hobst]
      rw [h]
      simp [hcfg, hobst]
    | some obst =>
      rw [computeError_of_bound e cfg obst hcfg hobst]
      simp [EdgeDynamicObstacle.assignError0, hcfg, hobst]

/-! ## Properties of the penalty and of the residual -/

/-- C6: the cost is zero outside the safety margin:
`penaltyBoundFromBelow(value, lower_bound, epsilon) = 0` whenever
`value >= lower_bound + epsilon`; hence `computeError` completes with residual
`0` whenever the Euclidean distance between the predicted obstacle position
`c + t*v` and the pose position is at least
`min_obstacle_dist + penalty_epsilon`. -/
theorem residual_zero_outside_margin (e : EdgeDynamicObstacle) (cfg : TebConfig)
    (obst : Obstacle) (hcfg : e.cfg_ = some cfg) (hobst : e._measurement = some obst)
    (hdist : cfg.obstacles.min_obstacle_dist + cfg.optim.penalty_epsilon
      ≤ ‖obst.getCentroid.toEuclidean + e.t_ • obst.getCentroidVelocity.toEuclidean
          - e._vertices0.position.toEuclidean‖) :
    (∀ value lower_bound epsilon : ℝ, value ≥ lower_bound + epsilon →
      penaltyBoundFromBelow value lower_bound epsilon = 0) ∧
    e.computeError.1 = Except.ok () ∧ e.computeError.2._error 0 = 0 := by
  refine ⟨penaltyBoundFromBelow_of_ge, computeError_completes e cfg obst hcfg hobst, ?_⟩
  rw [computeError_residual e cfg obst hcfg hobst]
  exact penaltyBoundFromBelow_of_ge _ _ _ hdist

/-- C6 evaluated on the two scenarios: min 1.0, eps 0.1, c=(0,0), v=(1,0),
t=2.0, pose (4,0) gives residual 0; min 0.5, eps 0.05, c=(5,5), v=(0,-1),
t=3.0, pose (5,3) gives residual 0. -/
theorem residual_zero_outside_margin_witness :
    ((scenario (some cfgA) (some obstA) 4 2 ⟨4, 0⟩ 0 (1 / 2)).computeError.1 = Except.ok () ∧
      (scenario (some cfgA) (some obstA) 4 2 ⟨4, 0⟩ 0 (1 / 2)).computeError.2._error 0 = 0) ∧
    ((scenario (some cfgB) (some obstB) 6 3 ⟨5, 3⟩ 0 (1 / 2)).computeError.1 = Except.ok () ∧
      (scenario (some cfgB) (some obstB) 6 3 ⟨5, 3⟩ 0 (1 / 2)).computeError.2._error 0 = 0) := by
  constructor
  · refine (residual_zero_outside_margin
      (scenario (some cfgA) (some obstA) 4 2 ⟨4, 0⟩ 0 (1 / 2)) cfgA obstA rfl rfl ?_).2
    show (1 : ℝ) + 1 / 10 ≤ ‖obstA.getCentroid.toEuclidean
      + (2 : ℝ) • obstA.getCentroidVelocity.toEuclidean - (⟨4, 0⟩ : Vector2d).toEuclidean‖
    rw [euclidean_distance_scenarioA]
    norm_num
  · refine (residual_zero_outside_margin
      (scenario (some cfgB) (some obstB) 6 3 ⟨5, 3⟩ 0 (1 / 2)) cfgB obstB rfl rfl ?_).2
    show (1 / 2 : ℝ) + 1 / 20 ≤ ‖obstB.getCentroid.toEuclidean
      + (3 : ℝ) • obstB.getCentroidVelocity.toEuclidean - (⟨5, 3⟩ : Vector2d).toEuclidean‖
    rw [euclidean_distance_scenarioB]
    norm_num

/-- C7: the cost is strictly positive inside the violation zone:
`penaltyBoundFromBelow(value, lower_bound, epsilon) > 0` whenever
`epsilon >= 0` and `value < lower_bound`; hence `computeError` completes with a
residual `> 0` whenever `penalty_epsilon >= 0` and the Euclidean distance
between the predicted obstacle position `c + t*v` and the pose position is less
than `min_obstacle_dist`. -/
theorem residual_pos_inside_violation_zone (e : EdgeDynamicObstacle) (cfg : TebConfig)
    (obst : Obstacle) (hcfg : e.cfg_ = some cfg) (hobst : e._measurement = some obst)
    (heps : 0 ≤ cfg.optim.penalty_epsilon)
    (hdist : ‖obst.getCentroid.toEuclidean + e.t_ • obst.getCentroidVelocity.toEuclidean
          - e._vertices0.position.toEuclidean‖ < cfg.obstacles.min_obstacle_dist) :
    (∀ value lower_bound epsilon : ℝ, 0 ≤ epsilon → value < lower_bound →
      0 < penaltyBoundFromBelow value lower_bound epsilon) ∧
    e.computeError.1 = Except.ok () ∧ 0 < e.computeError.2._error 0 := by
  have hpen : ∀ value lower_bound epsilon : ℝ, 0 ≤ epsilon → value < lower_bound →
      0 < penaltyBoundFromBelow value lower_bound epsilon := by
    intro value lower_bound epsilon h0 hlt
    rw [penaltyBoundFromBelow_of_lt value lower_bound epsilon (by linarith)]
    linarith
  refine ⟨hpen, computeError_completes e cfg obst hcfg hobst, ?_⟩
  rw [computeError_residual e cfg obst hcfg hobst]
  exact hpen _ _ _ heps hdist

/-- C7 evaluated on the two scenarios: min 1.0, eps 0.1, c=(0,0), v=(1,0),
t=2.0 and pose (2,0) give a residual `> 0`; min 0.5, eps 0.05, c=(5,5),
v=(0,-1), t=3.0 and pose (5,2) give the residual
`penaltyBoundFromBelow(0, 0.5, 0.05) > 0`. -/
theorem residual_pos_inside_violation_zone_witness :
    0 < (scenario (some cfgA) (some obstA) 4 2 ⟨2, 0⟩ 0 (1 / 2)).computeError.2._error 0 ∧
    0 < (scenario (some cfgB) (some obstB) 6 3 ⟨5, 2⟩ 0 (1 / 2)).computeError.2._error 0 ∧
    (scenario (some cfgB) (some obstB) 6 3 ⟨5, 2⟩ 0 (1 / 2)).computeError.2._error 0
      = penaltyBoundFromBelow 0 (1 / 2) (1 / 20) := by
  refine ⟨?_, ?_, ?_⟩
  · refine (residual_pos_inside_violation_zone
      (scenario (some cfgA) (some obstA) 4 2 ⟨2, 0⟩ 0 (1 / 2)) cfgA obstA rfl rfl ?_ ?_).2.2
    · show (0 : ℝ) ≤ 1 / 10
      norm_num
    · show ‖obstA.getCentroid.toEuclidean + (2 : ℝ) • obstA.getCentroidVelocity.toEuclidean
        - (⟨2, 0⟩ : Vector2d).toEuclidean‖ < (1 : ℝ)
      rw [euclidean_distance_scenarioA]
      norm_num
  · refine (residual_pos_inside_violation_zone
      (scenario (some cfgB) (some obstB) 6 3 ⟨5, 2⟩ 0 (1 / 2)) cfgB obstB rfl rfl ?_ ?_).2.2
    · show (0 : ℝ) ≤ 1 / 20
      norm_num
    · show ‖obstB.getCentroid.toEuclidean + (3 : ℝ) • obstB.getCentroidVelocity.toEuclidean
        - (⟨5, 2⟩ : Vector2d).toEuclidean‖ < (1 / 2 : ℝ)
      rw [euclidean_distance_scenarioB]
      norm_num
  · rw [computeError_residual (scenario (some cfgB) (some obstB) 6 3 ⟨5, 2⟩ 0 (1 / 2))
      cfgB obstB rfl rfl]
    show penaltyBoundFromBelow ‖obstB.getCentroid.toEuclidean
      + (3 : ℝ) • obstB.getCentroidVelocity.toEuclidean - (⟨5, 2⟩ : Vector2d).toEuclidean‖
      (1 / 2) (1 / 20) = penaltyBoundFromBelow 0 (1 / 2) (1 / 20)
    rw [euclidean_distance_scenarioB]
    norm_num

/-- C8: the penalty is monotonically non-increasing in its first argument:
`penaltyBoundFromBelow(value1, ..) >= penaltyBoundFromBelow(value2, ..)` for
every `lower_bound`, `epsilon` and `value1 <= value2`; hence, for a fixed
configuration, an edge whose pose is farther from its predicted obstacle
position never gets a larger residual from `computeError` than a nearer one. -/
theorem residual_antitone_in_distance (e1 e2 : EdgeDynamicObstacle) (cfg : TebConfig)
    (obst1 obst2 : Obstacle)
    (hcfg1 : e1.cfg_ = some cfg) (hcfg2 : e2.cfg_ = some cfg)
    (hobst1 : e1._measurement = some obst1) (hobst2 : e2._measurement = some obst2)
    (hdist : ‖obst1.getCentroid.toEuclidean + e1.t_ • obst1.getCentroidVelocity.toEuclidean
          - e1._vertices0.position.toEuclidean‖
      ≤ ‖obst2.getCentroid.toEuclidean + e2.t_ • obst2.getCentroidVelocity.toEuclidean
          - e2._vertices0.position.toEuclidean‖) :
    (∀ lower_bound epsilon value1 value2 : ℝ, value1 ≤ value2 →
      penaltyBoundFromBelow value1 lower_bound epsilon
        ≥ penaltyBoundFromBelow value2 lower_bound epsilon) ∧
    e1.computeError.1 = Except.ok () ∧ e2.computeError.1 = Except.ok () ∧
    e2.computeError.2._error 0 ≤ e1.computeError.2._error 0 := by
  refine ⟨penaltyBoundFromBelow_antitone, computeError_completes e1 cfg obst1 hcfg1 hobst1,
    computeError_completes e2 cfg obst2 hcfg2 hobst2, ?_⟩
  rw [computeError_residual e1 cfg obst1 hcfg1 hobst1,
    computeError_residual e2 cfg obst2 hcfg2 hobst2]
  exact penaltyBoundFromBelow_antitone _ _ _ _ hdist

/-- C8 evaluated on the first scenario: the pose at `(3.5,0)` (distance 1.5)
gets a residual no larger than the pose at `(2.5,0)` (distance 0.5). -/
theorem residual_antitone_in_distance_witness :
    (scenario (some cfgA) (some obstA) 4 2 ⟨7 / 2, 0⟩ 0 (1 / 2)).computeError.2._error 0
      ≤ (scenario (some cfgA) (some obstA) 4 2 ⟨5 / 2, 0⟩ 0 (1 / 2)).computeError.2._error 0 := by
  refine (residual_antitone_in_distance
    (scenario (some cfgA) (some obstA) 4 2 ⟨5 / 2, 0⟩ 0 (1 / 2))
    (scenario (some cfgA) (some obstA) 4 2 ⟨7 / 2, 0⟩ 0 (1 / 2))
    cfgA obstA obstA rfl rfl rfl rfl ?_).2.2.2
  show ‖obstA.getCentroid.toEuclidean + (2 : ℝ) • obstA.getCentroidVelocity.toEuclidean
      - (⟨5 / 2, 0⟩ : Vector2d).toEuclidean‖
    ≤ ‖obstA.getCentroid.toEuclidean + (2 : ℝ) • obstA.getCentroidVelocity.toEuclidean
      - (⟨7 / 2, 0⟩ : Vector2d).toEuclidean‖
  rw [euclidean_distance_scenarioA, euclidean_distance_scenarioA]
  norm_num [abs_of_neg, abs_of_pos]

/-- C10: the cost is never negative:
`penaltyBoundFromBelow(value, lower_bound, epsilon) >= 0` for every `value`,
`lower_bound` and `epsilon`, and therefore the residual `_error[0]` written by
`computeError` is `>= 0` for every edge state with configuration (and
obstacle) set. -/
theorem residual_nonneg (e : EdgeDynamicObstacle) (cfg : TebConfig) (obst : Obstacle)
    (hcfg : e.cfg_ = some cfg) (hobst : e._measurement = some obst) :
    (∀ value lower_bound epsilon : ℝ,
      penaltyBoundFromBelow value lower_bound epsilon ≥ 0) ∧
    e.computeError.1 = Except.ok () ∧ e.computeError.2._error 0 ≥ 0 := by
  refine ⟨penaltyBoundFromBelow_nonneg, computeError_completes e cfg obst hcfg hobst, ?_⟩
  rw [computeError_residual e cfg obst hcfg hobst]
  exact penaltyBoundFromBelow_nonneg _ _ _

/-- C10 evaluated on the second scenario with the pose at `(5,2)`, where the
residual slot held `0` before the call. -/
theorem residual_nonneg_witness :
    (scenario (some cfgB) (some obstB) 6 3 ⟨5, 2⟩ 0 (1 / 2)).computeError.1 = Except.ok () ∧
    (scenario (some cfgB) (some obstB) 6 3 ⟨5, 2⟩ 0 (1 / 2)).computeError.2._error 0 ≥ 0 :=
  (residual_nonneg (scenario (some cfgB) (some obstB) 6 3 ⟨5, 2⟩ 0 (1 / 2))
    cfgB obstB rfl rfl).2

/-! ## The motion model inside the residual -/

theorem Vector2d.ext_xy {a b : Vector2d} (hx : a.x = b.x) (hy : a.y = b.y) : a = b := by
  cases a
  cases b
  simp_all

theorem Vector2d.add_x (a b : Vector2d) : (a + b).x = a.x + b.x := rfl

theorem Vector2d.add_y (a b : Vector2d) : (a + b).y = a.y + b.y := rfl

theorem Vector2d.sub_x (a b : Vector2d) : (a - b).x = a.x - b.x := rfl

theorem Vector2d.sub_y (a b : Vector2d) : (a - b).y = a.y - b.y := rfl

theorem Vector2d.smul_x (s : ℝ) (a : Vector2d) : (s * a).x = s * a.x := rfl

theorem Vector2d.smul_y (s : ℝ) (a : Vector2d) : (s * a).y = s * a.y := rfl

/-- The prediction at time offset `0` is the centroid. -/
theorem predictPosition_zero (c v : Vector2d) : predictPosition c v 0 = c := by
  apply Vector2d.ext_xy
  · show c.x + 0 * v.x = c.x
    ring
  · show c.y + 0 * v.y = c.y
    ring

/-- The prediction for an obstacle at rest is the centroid. -/
theorem predictPosition_at_rest (c : Vector2d) (t : ℝ) : predictPosition c ⟨0, 0⟩ t = c := by
  apply Vector2d.ext_xy
  · show c.x + t * 0 = c.x
    ring
  · show c.y + t * 0 = c.y
    ring

/-- The distance of `computeError` is the norm of prediction minus position. -/
theorem predictedDistance_eq_predictPosition (c v : Vector2d) (t : ℝ) (p : Vector2d) :
    predictedDistance c v t p = (predictPosition c v t - p).norm := rfl

/-- The Euclidean distance between two points, through the Eigen norm. -/
theorem Vector2d.norm_sub_eq_euclidean (a b : Vector2d) :
    (a - b).norm = ‖a.toEuclidean - b.toEuclidean‖ := by
  rw [Vector2d.norm_eq_sqrt, EuclideanSpace.norm_eq, Fin.sum_univ_two]
  simp [Vector2d.toEuclidean, sq_abs, Vector2d.sub_x, Vector2d.sub_y]

/-- The residual of a bound edge, in terms of the motion model. -/
theorem computeError_residual_predictPosition (e : EdgeDynamicObstacle) (cfg : TebConfig)
    (obst : Obstacle) (hcfg : e.cfg_ = some cfg) (hobst : e._measurement = some obst) :
    e.computeError.2._error 0
      = penaltyBoundFromBelow
          (predictPosition obst.getCentroid obst.getCentroidVelocity e.t_
            - e._vertices0.position).norm
          cfg.obstacles.min_obstacle_dist cfg.optim.penalty_epsilon := by
  rw [computeError_of_bound e cfg obst hcfg hobst]
  simp [EdgeDynamicObstacle.assignError0, residualOf, predictedDistance_eq_predictPosition]

/-- C12: with time offset 0 the predicted obstacle position is the obstacle
centroid itself, `c + 0*v = c` for every centroid `c` and velocity `v`; so an
edge constructed with `t = 0` (configuration and obstacle set) completes with
the residual `penaltyBoundFromBelow(norm(c - p), min_obstacle_dist,
penalty_epsilon)`, and the residual stays the same when the obstacle velocity
is replaced by any other. -/
theorem residual_at_time_offset_zero (base : BaseTebBinaryEdge) (vert_idx : ℕ)
    (cfg : TebConfig) (obst : Obstacle)
    (hcfg : base.cfg_ = some cfg) (hobst : base._measurement = some obst) :
    (∀ c v : Vector2d, c + (0 : ℝ) * v = c) ∧
    (EdgeDynamicObstacle.create base vert_idx 0).computeError.1 = Except.ok () ∧
    (EdgeDynamicObstacle.create base vert_idx 0).computeError.2._error 0
      = penaltyBoundFromBelow
          ‖obst.getCentroid.toEuclidean - base._vertices0.position.toEuclidean‖
          cfg.obstacles.min_obstacle_dist cfg.optim.penalty_epsilon ∧
    (∀ v : Vector2d,
      ((EdgeDynamicObstacle.create base vert_idx 0).setObstacle
          (some { centroid_ := obst.getCentroid, centroid_velocity_ := v })).computeError.2._error 0
        = (EdgeDynamicObstacle.create base vert_idx 0).computeError.2._error 0) := by
  have hres : ∀ o : Obstacle, ∀ e : EdgeDynamicObstacle, e.cfg_ = some cfg →
      e._measurement = some o → e.t_ = 0 →
      e.computeError.2._error 0
        = penaltyBoundFromBelow ‖o.getCentroid.toEuclidean - e._vertices0.position.toEuclidean‖
            cfg.obstacles.min_obstacle_dist cfg.optim.penalty_epsilon := by
    intro o e h1 h2 h3
    rw [computeError_residual_predictPosition e cfg o h1 h2, h3, predictPosition_zero,
      Vector2d.norm_sub_eq_euclidean]
  refine ⟨predictPosition_zero, ?_, ?_, ?_⟩
  · exact computeError_completes _ cfg obst hcfg hobst
  · exact hres obst _ hcfg hobst rfl
  · intro v
    rw [hres obst (EdgeDynamicObstacle.create base vert_idx 0) hcfg hobst rfl,
      hres { centroid_ := obst.getCentroid, centroid_velocity_ := v }
        ((EdgeDynamicObstacle.create base vert_idx 0).setObstacle
          (some { centroid_ := obst.getCentroid, centroid_velocity_ := v })) hcfg rfl rfl]
    rfl

/-- C12 evaluated on the first scenario with time offset `0` and the pose at
`(3,0)`: the call completes and the residual is the penalty of the distance
between the centroid `(0,0)` and the pose. -/
theorem residual_at_time_offset_zero_witness :
    (scenario (some cfgA) (some obstA) 0 0 ⟨3, 0⟩ 0 (1 / 2)).computeError.1 = Except.ok () ∧
    (scenario (some cfgA) (some obstA) 0 0 ⟨3, 0⟩ 0 (1 / 2)).computeError.2._error 0
      = penaltyBoundFromBelow
          ‖obstA.getCentroid.toEuclidean - (⟨3, 0⟩ : Vector2d).toEuclidean‖ 1 (1 / 10) :=
  ⟨(residual_at_time_offset_zero
      { _vertices0 := { _estimate := { _position := ⟨3, 0⟩, _theta := 0 } }
        _vertices1 := { _estimate := 1 / 2 }
        _measurement := some obstA
        cfg_ := some cfgA
        _error := fun _ => 0 } 0 cfgA obstA rfl rfl).2.1,
   (residual_at_time_offset_zero
      { _vertices0 := { _estimate := { _position := ⟨3, 0⟩, _theta := 0 } }
        _vertices1 := { _estimate := 1 / 2 }
        _measurement := some obstA
        cfg_ := some cfgA
        _error := fun _ => 0 } 0 cfgA obstA rfl rfl).2.2.1⟩

/-- C13: the predicted obstacle position used by `computeError` is linear in
the time offset for fixed centroid `c` and velocity `v`: with
`pred(t) = c + t*v`, for all `t1`, `t2` and every real `a`,
`pred(a*t1 + (1-a)*t2) = a*pred(t1) + (1-a)*pred(t2)` and
`pred(t1 + t2) - pred(t1) = t2*v`; and the residual of a bound edge is the
penalty of the norm of `pred(t_) - p`. -/
theorem predictPosition_linear_in_time (c v : Vector2d) (t1 t2 a : ℝ) :
    predictPosition c v (a * t1 + (1 - a) * t2)
      = a * predictPosition c v t1 + (1 - a) * predictPosition c v t2 ∧
    predictPosition c v (t1 + t2) - predictPosition c v t1 = t2 * v ∧
    (∀ (e : EdgeDynamicObstacle) (cfg : TebConfig) (obst : Obstacle),
      e.cfg_ = some cfg → e._measurement = some obst →
      e.computeError.2._error 0
        = penaltyBoundFromBelow
            (predictPosition obst.getCentroid obst.getCentroidVelocity e.t_
              - e._vertices0.position).norm
            cfg.obstacles.min_obstacle_dist cfg.optim.penalty_epsilon) := by
  refine ⟨?_, ?_, computeError_residual_predictPosition⟩
  · apply Vector2d.ext_xy
    · show c.x + (a * t1 + (1 - a) * t2) * v.x
        = a * (c.x + t1 * v.x) + (1 - a) * (c.x + t2 * v.x)
      ring
    · show c.y + (a * t1 + (1 - a) * t2) * v.y
        = a * (c.y + t1 * v.y) + (1 - a) * (c.y + t2 * v.y)
      ring
  · apply Vector2d.ext_xy
    · show c.x + (t1 + t2) * v.x - (c.x + t1 * v.x) = t2 * v.x
      ring
    · show c.y + (t1 + t2) * v.y - (c.y + t1 * v.y) = t2 * v.y
      ring

/-- C14: for an obstacle with velocity `(0,0)` the predicted position, and
therefore the residual written by `computeError`, is independent of the time
offset: two edges over the same pose, configuration and obstacle, constructed
with any two time offsets `t1`, `t2`, complete with the same `_error[0]`, equal
to the penalty of the distance to the centroid. -/
theorem residual_static_obstacle_independent_of_time (base : BaseTebBinaryEdge)
    (cfg : TebConfig) (obst : Obstacle) (vert_idx1 vert_idx2 : ℕ) (t1 t2 : ℝ)
    (hcfg : base.cfg_ = some cfg) (hobst : base._measurement = some obst)
    (hv : obst.getCentroidVelocity = ⟨0, 0⟩) :
    predictPosition obst.getCentroid obst.getCentroidVelocity t1
      = predictPosition obst.getCentroid obst.getCentroidVelocity t2 ∧
    (EdgeDynamicObstacle.create base vert_idx1 t1).computeError.1 = Except.ok () ∧
    (EdgeDynamicObstacle.create base vert_idx2 t2).computeError.1 = Except.ok () ∧
    (EdgeDynamicObstacle.create base vert_idx1 t1).computeError.2._error 0
      = (EdgeDynamicObstacle.create base vert_idx2 t2).computeError.2._error 0 ∧
    (EdgeDynamicObstacle.create base vert_idx1 t1).computeError.2._error 0
      = penaltyBoundFromBelow
          ‖obst.getCentroid.toEuclidean - base._vertices0.position.toEuclidean‖
          cfg.obstacles.min_obstacle_dist cfg.optim.penalty_epsilon := by
  have hres : ∀ (i : ℕ) (t : ℝ),
      (EdgeDynamicObstacle.create base i t).computeError.2._error 0
        = penaltyBoundFromBelow
            ‖obst.getCentroid.toEuclidean - base._vertices0.position.toEuclidean‖
            cfg.obstacles.min_obstacle_dist cfg.optim.penalty_epsilon := by
    intro i t
    rw [computeError_residual_predictPosition _ cfg obst hcfg hobst, hv,
      predictPosition_at_rest, Vector2d.norm_sub_eq_euclidean]
    rfl
  refine ⟨?_, computeError_completes _ cfg obst hcfg hobst,
    computeError_completes _ cfg obst hcfg hobst, ?_, hres vert_idx1 t1⟩
  · rw [hv, predictPosition_at_rest, predictPosition_at_rest]
  · rw [hres vert_idx1 t1, hres vert_idx2 t2]

/-- C14 evaluated on an obstacle at rest at `(5,5)` with the pose at `(5,3)`
and the second configuration: the time offsets `3` and `40` give the same
residual. -/
theorem residual_static_obstacle_independent_of_time_witness :
    (scenario (some cfgB) (some { centroid_ := ⟨5, 5⟩, centroid_velocity_ := ⟨0, 0⟩ })
        6 3 ⟨5, 3⟩ 0 (1 / 2)).computeError.2._error 0
      = (scenario (some cfgB) (some { centroid_ := ⟨5, 5⟩, centroid_velocity_ := ⟨0, 0⟩ })
        80 40 ⟨5, 3⟩ 0 (1 / 2)).computeError.2._error 0 :=
  (residual_static_obstacle_independent_of_time
    { _vertices0 := { _estimate := { _position := ⟨5, 3⟩, _theta := 0 } }
      _vertices1 := { _estimate := 1 / 2 }
      _measurement := some { centroid_ := ⟨5, 5⟩, centroid_velocity_ := ⟨0, 0⟩ }
      cfg_ := some cfgB
      _error := fun _ => 0 }
    cfgB { centroid_ := ⟨5, 5⟩, centroid_velocity_ := ⟨0, 0⟩ } 6 80 3 40 rfl rfl rfl).2.2.2.1

/-- The distance is `0` when the pose is at the predicted obstacle position. -/
theorem predictedDistance_at_prediction (c v : Vector2d) (t : ℝ) :
    predictedDistance c v t (c + t * v) = 0 := by
  rw [predictedDistance_eq_sqrt]
  rw [show (c.x + t * v.x - (c + t * v).x) ^ 2 + (c.y + t * v.y - (c + t * v).y) ^ 2 = 0 by
    rw [Vector2d.add_x, Vector2d.add_y, Vector2d.smul_x, Vector2d.smul_y]
    ring]
  exact Real.sqrt_zero

/-- The distance is unchanged when centroid and pose are moved by the same
vector. -/
theorem predictedDistance_translate (c v : Vector2d) (t : ℝ) (p d : Vector2d) :
    predictedDistance (c + d) v t (p + d) = predictedDistance c v t p := by
  rw [predictedDistance_eq_sqrt, predictedDistance_eq_sqrt]
  congr 1
  rw [Vector2d.add_x, Vector2d.add_y, Vector2d.add_x, Vector2d.add_y]
  ring

/-- The residual of a bound edge, in terms of the distance of the code. -/
theorem computeError_residual_predictedDistance (e : EdgeDynamicObstacle) (cfg : TebConfig)
    (obst : Obstacle) (hcfg : e.cfg_ = some cfg) (hobst : e._measurement = some obst) :
    e.computeError.2._error 0
      = penaltyBoundFromBelow
          (predictedDistance obst.getCentroid obst.getCentroidVelocity e.t_
            e._vertices0.position)
          cfg.obstacles.min_obstacle_dist cfg.optim.penalty_epsilon := by
  rw [computeError_of_bound e cfg obst hcfg hobst]
  simp [EdgeDynamicObstacle.assignError0, residualOf]

/-- C15: the residual is maximal when the pose coincides with the predicted
obstacle position: for a configuration, obstacle and time offset, the residual
`computeError` produces at any pose position `p` is less than or equal to the
residual it produces at `p0 = c + t*v`, which equals
`penaltyBoundFromBelow(0, min_obstacle_dist, penalty_epsilon)`. -/
theorem residual_maximal_at_prediction (e e0 : EdgeDynamicObstacle) (cfg : TebConfig)
    (obst : Obstacle)
    (hcfg : e.cfg_ = some cfg) (hcfg0 : e0.cfg_ = some cfg)
    (hobst : e._measurement = some obst) (hobst0 : e0._measurement = some obst)
    (ht : e0.t_ = e.t_)
    (hp0 : e0._vertices0.position = obst.getCentroid + e.t_ * obst.getCentroidVelocity) :
    e.computeError.1 = Except.ok () ∧ e0.computeError.1 = Except.ok () ∧
    e.computeError.2._error 0 ≤ e0.computeError.2._error 0 ∧
    e0.computeError.2._error 0
      = penaltyBoundFromBelow 0 cfg.obstacles.min_obstacle_dist cfg.optim.penalty_epsilon := by
  have h0 : e0.computeError.2._error 0
      = penaltyBoundFromBelow 0 cfg.obstacles.min_obstacle_dist cfg.optim.penalty_epsilon := by
    rw [computeError_residual_predictedDistance e0 cfg obst hcfg0 hobst0, hp0, ht,
      predictedDistance_at_prediction]
  refine ⟨computeError_completes e cfg obst hcfg hobst,
    computeError_completes e0 cfg obst hcfg0 hobst0, ?_, h0⟩
  rw [h0, computeError_residual_predictedDistance e cfg obst hcfg hobst]
  exact penaltyBoundFromBelow_antitone _ _ _ _ (predictedDistance_nonneg _ _ _ _)

/-- C15 evaluated on the first scenario: the residual at the pose `(3,0)` is at
most the residual at the predicted obstacle position `(2,0)`, which is
`penaltyBoundFromBelow(0, 1.0, 0.1)`. -/
theorem residual_maximal_at_prediction_witness :
    (scenario (some cfgA) (some obstA) 4 2 ⟨3, 0⟩ 0 (1 / 2)).computeError.2._error 0
      ≤ (scenario (some cfgA) (some obstA) 4 2 ⟨2, 0⟩ 0 (1 / 2)).computeError.2._error 0 ∧
    (scenario (some cfgA) (some obstA) 4 2 ⟨2, 0⟩ 0 (1 / 2)).computeError.2._error 0
      = penaltyBoundFromBelow 0 1 (1 / 10) := by
  have h := residual_maximal_at_prediction
    (scenario (some cfgA) (some obstA) 4 2 ⟨3, 0⟩ 0 (1 / 2))
    (scenario (some cfgA) (some obstA) 4 2 ⟨2, 0⟩ 0 (1 / 2))
    cfgA obstA rfl rfl rfl rfl rfl
    (Vector2d.ext_xy (show (2 : ℝ) = 0 + 2 * 1 by norm_num)
      (show (0 : ℝ) = 0 + 2 * 0 by norm_num))
  exact ⟨h.2.2.1, h.2.2.2⟩

/-- C17: the residual is invariant under a common translation of the world
frame: for every 2D vector `d`, replacing the obstacle centroid `c` by `c + d`
and the pose position `p` by `p + d` (velocity, time offset and configuration
unchanged) leaves the `_error[0]` computed by `computeError` unchanged. -/
theorem residual_translation_invariant (e1 e2 : EdgeDynamicObstacle) (cfg : TebConfig)
    (obst1 obst2 : Obstacle) (d : Vector2d)
    (hcfg1 : e1.cfg_ = some cfg) (hcfg2 : e2.cfg_ = some cfg)
    (hobst1 : e1._measurement = some obst1) (hobst2 : e2._measurement = some obst2)
    (hc : obst2.getCentroid = obst1.getCentroid + d)
    (hv : obst2.getCentroidVelocity = obst1.getCentroidVelocity)
    (ht : e2.t_ = e1.t_)
    (hp : e2._vertices0.position = e1._vertices0.position + d) :
    e1.computeError.1 = Except.ok () ∧ e2.computeError.1 = Except.ok () ∧
    e2.computeError.2._error 0 = e1.computeError.2._error 0 := by
  refine ⟨computeError_completes e1 cfg obst1 hcfg1 hobst1,
    computeError_completes e2 cfg obst2 hcfg2 hobst2, ?_⟩
  rw [computeError_residual_predictedDistance e1 cfg obst1 hcfg1 hobst1,
    computeError_residual_predictedDistance e2 cfg obst2 hcfg2 hobst2, hc, hv, ht, hp,
    predictedDistance_translate]

/-- C17 evaluated on the first scenario with the pose at `(3,0)`, moved by
`d = (10,-3)`. -/
theorem residual_translation_invariant_witness :
    (scenario (some cfgA)
        (some { centroid_ := obstA.getCentroid + (⟨10, -3⟩ : Vector2d),
                centroid_velocity_ := obstA.getCentroidVelocity })
        4 2 ((⟨3, 0⟩ : Vector2d) + (⟨10, -3⟩ : Vector2d)) 0 (1 / 2)).computeError.2._error 0
      = (scenario (some cfgA) (some obstA) 4 2 ⟨3, 0⟩ 0 (1 / 2)).computeError.2._error 0 :=
  (residual_translation_invariant
    (scenario (some cfgA) (some obstA) 4 2 ⟨3, 0⟩ 0 (1 / 2))
    (scenario (some cfgA)
        (some { centroid_ := obstA.getCentroid + (⟨10, -3⟩ : Vector2d),
                centroid_velocity_ := obstA.getCentroidVelocity })
        4 2 ((⟨3, 0⟩ : Vector2d) + (⟨10, -3⟩ : Vector2d)) 0 (1 / 2))
    cfgA obstA
    { centroid_ := obstA.getCentroid + (⟨10, -3⟩ : Vector2d),
      centroid_velocity_ := obstA.getCentroidVelocity }
    ⟨10, -3⟩ rfl rfl rfl rfl rfl rfl rfl rfl).2.2

/-! ## Mutators and call sequences -/

/-- The time offset survives `computeError`, whatever its outcome. -/
theorem computeError_preserves_t (e : EdgeDynamicObstacle) : e.computeError.2.t_ = e.t_ := by
  cases hcfg : e.cfg_ with
  | none => rw [computeError_of_unset e hcfg]
  | some cfg =>
    cases hobst : e._measurement with
    | none =>
      have h : e.computeError = (Except.error Fault.nullObstacle, e) := by
        unfold EdgeDynamicObstacle.computeError
        simp only [hcfg, hobst]
      rw [h]
    | some obst =>
      rw [computeError_of_bound e cfg obst hcfg hobst]
      rfl

/-- The time offset survives every single call. -/
theorem applyCall_preserves_t (e : EdgeDynamicObstacle) (call : Call) :
    (applyCall e call).2.t_ = e.t_ := by
  cases call with
  | setVertexIdx vert_idx => rfl
  | setObstacle obstacle => rfl
  | computeError => exact computeError_preserves_t e

/-- The time offset survives every sequence of calls. -/
theorem runCalls_preserves_t (calls : List Call) (e : EdgeDynamicObstacle) :
    (runCalls calls e).2.t_ = e.t_ := by
  induction calls generalizing e with
  | nil => rfl
  | cons call rest ih =>
    have hstep := applyCall_preserves_t e call
    unfold runCalls
    rcases happ : applyCall e call with ⟨outcome, e'⟩
    rw [happ] at hstep
    cases outcome with
    | ok u =>
      cases u
      simp only
      rw [ih e']
      exact hstep
    | error f =>
      simp only
      exact hstep

/-- C16: each mutator changes only its own field and none changes the time
offset: `setVertexIdx(i)` sets `vert_idx_` to `i` and leaves `t_`, the obstacle
reference, the configuration, `_error` and the vertices unchanged;
`setObstacle(o)` sets the obstacle reference to `o` and leaves `vert_idx_`,
`t_`, the configuration, `_error` and the vertices unchanged. Consequently,
after the two-argument constructor and any sequence of `setVertexIdx`,
`setObstacle` and `computeError` calls, `t_` is still the constructor's `t`,
and a `computeError` made then (configuration and obstacle set) completes with
the penalty of the Euclidean norm of `(c + t*v) - p` for that `t`. -/
theorem mutators_frame_and_time_offset_fixed (base : BaseTebBinaryEdge) (vert_idx : ℕ)
    (t : ℝ) (calls : List Call) :
    (∀ (e : EdgeDynamicObstacle) (i : ℕ),
      (e.setVertexIdx i).vert_idx_ = i ∧
      (e.setVertexIdx i).t_ = e.t_ ∧
      (e.setVertexIdx i)._measurement = e._measurement ∧
      (e.setVertexIdx i).cfg_ = e.cfg_ ∧
      (e.setVertexIdx i)._error = e._error ∧
      (e.setVertexIdx i)._vertices0 = e._vertices0 ∧
      (e.setVertexIdx i)._vertices1 = e._vertices1) ∧
    (∀ (e : EdgeDynamicObstacle) (o : Option Obstacle),
      (e.setObstacle o)._measurement = o ∧
      (e.setObstacle o).vert_idx_ = e.vert_idx_ ∧
      (e.setObstacle o).t_ = e.t_ ∧
      (e.setObstacle o).cfg_ = e.cfg_ ∧
      (e.setObstacle o)._error = e._error ∧
      (e.setObstacle o)._vertices0 = e._vertices0 ∧
      (e.setObstacle o)._vertices1 = e._vertices1) ∧
    (EdgeDynamicObstacle.create base vert_idx t).t_ = t ∧
    (runCalls calls (EdgeDynamicObstacle.create base vert_idx t)).2.t_ = t ∧
    (∀ (cfg : TebConfig) (obst : Obstacle),
      (runCalls calls (EdgeDynamicObstacle.create base vert_idx t)).2.cfg_ = some cfg →
      (runCalls calls (EdgeDynamicObstacle.create base vert_idx t)).2._measurement
        = some obst →
      (runCalls calls (EdgeDynamicObstacle.create base vert_idx t)).2.computeError.1
        = Except.ok () ∧
      (runCalls calls (EdgeDynamicObstacle.create base vert_idx t)).2.computeError.2._error 0
        = penaltyBoundFromBelow
            ‖obst.getCentroid.toEuclidean + t • obst.getCentroidVelocity.toEuclidean
              - (runCalls calls (EdgeDynamicObstacle.create base vert_idx t)).2._vertices0.position.toEuclidean‖
            cfg.obstacles.min_obstacle_dist cfg.optim.penalty_epsilon) := by
  have ht : (runCalls calls (EdgeDynamicObstacle.create base vert_idx t)).2.t_ = t :=
    runCalls_preserves_t calls (EdgeDynamicObstacle.create base vert_idx t)
  refine ⟨?_, ?_, rfl, ht, ?_⟩
  · intro e i
    exact ⟨rfl, rfl, rfl, rfl, rfl, rfl, rfl⟩
  · intro e o
    exact ⟨rfl, rfl, rfl, rfl, rfl, rfl, rfl⟩
  · intro cfg obst hcfg hobst
    refine ⟨computeError_completes _ cfg obst hcfg hobst, ?_⟩
    rw [computeError_residual _ cfg obst hcfg hobst, ht]

/-! ## The documented space-time distance -/

/-- At `s = t` the x-y-t distance to the trajectory is the distance of the
code, so the documented minimum never exceeds it. -/
theorem spaceTimeDistanceAt_self (c v : Vector2d) (t : ℝ) (p : Vector2d) :
    spaceTimeDistanceAt c v t p t = predictedDistance c v t p := by
  unfold spaceTimeDistanceAt predictedDistance Vector2d.norm
  congr 1
  ring

/-- C11, evaluated where the code departs from it: for the obstacle with
centroid `(0,0)` and velocity `(0.75,0)`, time offset `4` and pose `(8,0)`, the
distance `computeError` feeds into the penalty is `5`, whereas the minimum
distance in x-y-t from `(8,0,4)` to the obstacle line is `4` (attained at
`s = 6.4`), so `5` is not that minimum; with `min_obstacle_dist = 4.5` and
`penalty_epsilon = 0.1` the code stores the residual `0` where the documented
distance gives `penaltyBoundFromBelow(4, 4.5, 0.1) = 0.6`. -/
theorem computeError_distance_differs_from_space_time_distance :
    predictedDistance obstC.getCentroid obstC.getCentroidVelocity 4 ⟨8, 0⟩ = 5 ∧
    IsSpaceTimeDistance obstC.getCentroid obstC.getCentroidVelocity 4 ⟨8, 0⟩ 4 ∧
    ¬ IsSpaceTimeDistance obstC.getCentroid obstC.getCentroidVelocity 4 ⟨8, 0⟩ 5 ∧
    (scenario (some cfgC) (some obstC) 8 4 ⟨8, 0⟩ 0 (1 / 2)).computeError.1 = Except.ok () ∧
    (scenario (some cfgC) (some obstC) 8 4 ⟨8, 0⟩ 0 (1 / 2)).computeError.2._error 0 = 0 ∧
    penaltyBoundFromBelow 4 cfgC.obstacles.min_obstacle_dist cfgC.optim.penalty_epsilon
      = 3 / 5 := by
  have hcode : predictedDistance obstC.getCentroid obstC.getCentroidVelocity 4 ⟨8, 0⟩ = 5 := by
    rw [predictedDistance_eq_sqrt]
    show Real.sqrt (((0 : ℝ) + 4 * (3 / 4) - 8) ^ 2 + (0 + 4 * 0 - 0) ^ 2) = 5
    rw [show (((0 : ℝ) + 4 * (3 / 4) - 8) ^ 2 + (0 + 4 * 0 - 0) ^ 2) = 5 ^ 2 by norm_num]
    exact Real.sqrt_sq (by norm_num)
  have hleast : IsSpaceTimeDistance obstC.getCentroid obstC.getCentroidVelocity 4 ⟨8, 0⟩ 4 := by
    constructor
    · refine ⟨32 / 5, ?_⟩
      show Real.sqrt ((((0 : ℝ) + 32 / 5 * (3 / 4) - 8) * (0 + 32 / 5 * (3 / 4) - 8)
        + (0 + 32 / 5 * 0 - 0) * (0 + 32 / 5 * 0 - 0)) + (32 / 5 - 4) * (32 / 5 - 4)) = 4
      rw [show ((((0 : ℝ) + 32 / 5 * (3 / 4) - 8) * (0 + 32 / 5 * (3 / 4) - 8)
        + (0 + 32 / 5 * 0 - 0) * (0 + 32 / 5 * 0 - 0)) + (32 / 5 - 4) * (32 / 5 - 4))
        = 4 ^ 2 by norm_num]
      exact Real.sqrt_sq (by norm_num)
    · rintro _ ⟨s, rfl⟩
      show (4 : ℝ) ≤ Real.sqrt ((((0 : ℝ) + s * (3 / 4) - 8) * (0 + s * (3 / 4) - 8)
        + (0 + s * 0 - 0) * (0 + s * 0 - 0)) + (s - 4) * (s - 4))
      rw [Real.le_sqrt' (by norm_num)]
      nlinarith [sq_nonneg (5 * s / 4 - 8)]
  refine ⟨hcode, hleast, ?_, ?_, ?_, ?_⟩
  · intro h5
    have h := h5.unique hleast
    norm_num at h
  · exact computeError_completes _ cfgC obstC rfl rfl
  · rw [computeError_residual_predictedDistance _ cfgC obstC rfl rfl]
    show penaltyBoundFromBelow
      (predictedDistance obstC.getCentroid obstC.getCentroidVelocity 4 ⟨8, 0⟩)
      (9 / 2) (1 / 10) = 0
    rw [hcode]
    exact penaltyBoundFromBelow_of_ge _ _ _ (by norm_num)
  · show penaltyBoundFromBelow 4 (9 / 2) (1 / 10) = 3 / 5
    rw [penaltyBoundFromBelow_of_lt _ _ _ (by norm_num)]
    norm_num

end teb_local_planner
